import Mathlib

/-!
Verification of the gaiaviz `SkyPatch` orchestration layer, shallowly
embedded from `src/gaiaviz/SkyPatch.py` (the latest, precondition-validated
revision, which the specification designates as authoritative).

Modelling conventions:
* numeric catalog values are rationals (`ℚ`); the claims settled here do not
  depend on binary floating-point rounding;
* the external Gaia query service (`Gaia.launch_job(query).get_results()`)
  is an abstract function from the query string to a list of typed rows;
* the galpy orbit integrator is an abstract per-source, per-timestep result;
* the plotting backends are modelled by the data the code hands to them.
-/

namespace Gaiaviz

/-- Substring containment, stated over the underlying character lists:
`t` occurs contiguously inside `s`. -/
def strContains (s t : String) : Prop :=
  ∃ l r, s.data = l ++ t.data ++ r

/-- Suffix relation on strings: `s` ends with the text `t`. -/
def strEndsWith (s t : String) : Prop :=
  ∃ l, s.data = l ++ t.data

/-! ### The catalog query string

`SkyPatch.__init__` builds the ADQL query with one f-string; the fixed text
before and after the three interpolated values `{ra},{dec},{radius}` is
reproduced below verbatim, including the embedded newlines and the
eight-space indentation of the continuation lines. -/

/-- Fixed query text before the interpolated `ra` value. -/
def queryHead : String :=
  "source_id, ra, dec, pmra, pmdec, parallax, radial_velocity, phot_g_mean_mag, phot_variable_flag\n        FROM gaiadr3.gaia_source\n        WHERE 1=CONTAINS(POINT(ra,dec), CIRCLE("

/-- Fixed query text after the interpolated `radius` value: the row filters
and the ORDER BY clause. -/
def queryTail : String :=
  "))\n        AND radial_velocity IS NOT NULL AND ra IS NOT NULL AND dec IS NOT NULL AND parallax >= 0\n        AND phot_g_mean_mag < 10\n        ORDER BY phot_g_mean_mag"

/-- The f-string body of the query: fixed text around the string forms of
`ra`, `dec` and `radius` (Python interpolates `str()` of the numbers). -/
def gaiaQueryBody (raS decS radS : String) : String :=
  queryHead ++ raS ++ "," ++ decS ++ "," ++ radS ++ queryTail

/-- The full query as submitted: `TOP {num_sources} ` is prepended when a row
cap is given, then `SELECT ` is prepended. -/
def gaiaQuery (raS decS radS : String) (num_sources : Option Nat) : String :=
  match num_sources with
  | some n => "SELECT " ++ ("TOP " ++ toString n ++ " " ++ gaiaQueryBody raS decS radS)
  | none => "SELECT " ++ gaiaQueryBody raS decS radS

/-! ### Rows and the derived distance column -/

/-- One row of the query result, with the selected columns.  The columns
`ra`, `dec` and `radial_velocity` are total here because the query's
`IS NOT NULL` filters (proved present below) exclude missing values at the
service boundary; `parallax` carries no sign restriction in the type, the
query filter `parallax >= 0` is an assumption on the service. -/
structure GaiaRow where
  source_id : Int
  ra : ℚ
  dec : ℚ
  pmra : ℚ
  pmdec : ℚ
  parallax : ℚ
  radial_velocity : ℚ
  phot_g_mean_mag : ℚ
  phot_variable_flag : String
deriving DecidableEq, Repr

/-- Astropy unit scale: one milliarcsecond in arcseconds. -/
def mas_to_arcsec (x : ℚ) : ℚ := x / 1000

/-- The astropy parallax equivalency: a parallax of `p` arcseconds
corresponds to a distance of `1 / p` parsecs. -/
def parallaxEquiv_arcsec_to_pc (p : ℚ) : ℚ := 1 / p

/-- Astropy unit scale: parsecs to kiloparsecs. -/
def pc_to_kpc (x : ℚ) : ℚ := x / 1000

/-- The scalar `u.marcsec.to(u.kpc, equivalencies=u.parallax())`: astropy
converts the value 1.0 (one milliarcsecond) through the parallax equivalency,
giving `(1 / (1/1000)) / 1000 = 1`.  The code multiplies the whole parallax
column by this one constant. -/
def marcsec_to_kpc_factor : ℚ :=
  pc_to_kpc (parallaxEquiv_arcsec_to_pc (mas_to_arcsec 1))

/-- A row of `self.pandas_data` after the constructor appends the derived
`distance` column. -/
structure PandasRow extends GaiaRow where
  distance : ℚ
deriving DecidableEq, Repr

/-- The constructor's distance assignment, per row:
`pandas_data['distance'] = pandas_data['parallax'] * u.marcsec.to(u.kpc, equivalencies=u.parallax())`. -/
def addDistance (r : GaiaRow) : PandasRow :=
  { r with distance := r.parallax * marcsec_to_kpc_factor }

/-- Modelled from the spec: the distance the specification mandates for a
row, `1 / parallax`, parallax in milliarcseconds and distance in
kiloparsecs (the standard parallax-distance relation). -/
def spec_distance (parallax_mas : ℚ) : ℚ := 1 / parallax_mas

/-! ### The SkyPatch state and constructor -/

/-- The fields `__init__` stores on `self`. -/
structure SkyPatchState where
  ra : ℚ
  dec : ℚ
  radius : ℚ
  num_sources : Option Nat
  pandas_data : List PandasRow
deriving DecidableEq, Repr

/-- The message of the radius assert in `__init__`. -/
def radiusAssertMsg : String :=
  "radius cannot be greater than 90 or less than 1"

/-- `SkyPatch.__init__(ra, dec, radius, num_sources)`.

`pyStr` models Python `str()` on numbers (the f-string interpolation);
`svc` models the external service round trip
`Gaia.launch_job(query).get_results().to_pandas()` as a function from the
query text to the returned rows.  The `assert 1 < radius < 100` runs first:
when it fails, the error is raised before the query string is interpolated
or submitted, which the definition reflects by returning the error without
consulting `svc`. -/
def skyPatchInit (pyStr : ℚ → String) (svc : String → List GaiaRow)
    (ra dec radius : ℚ) (num_sources : Option Nat) : Except String SkyPatchState :=
  if 1 < radius ∧ radius < 100 then
    let query := gaiaQuery (pyStr ra) (pyStr dec) (pyStr radius) num_sources
    let rows := svc query
    Except.ok
      { ra := ra
        dec := dec
        radius := radius
        num_sources := num_sources
        pandas_data := rows.map addDistance }
  else
    Except.error radiusAssertMsg

/-- A service that honors an ADQL row cap: a query of the form
`SELECT TOP n ...` returns at most `n` rows. -/
def honorsTop (svc : String → List GaiaRow) : Prop :=
  ∀ (n : Nat) (rest : String), (svc ("SELECT TOP " ++ toString n ++ " " ++ rest)).length ≤ n

/-- A service that honors the `parallax >= 0` WHERE filter: every row it
returns for a query containing that filter has non-negative parallax. -/
def honorsParallaxFilter (svc : String → List GaiaRow) : Prop :=
  ∀ q, strContains q "parallax >= 0" → ∀ r ∈ svc q, 0 ≤ r.parallax

/-- A concrete state used to instantiate hypotheses at the empty service:
the result of constructing with ra 10, dec 20, radius 50, no row cap. -/
def emptyPatchNoCap : SkyPatchState :=
  { ra := 10
    dec := 20
    radius := 50
    num_sources := none
    pandas_data := [] }

/-- A concrete state used to instantiate hypotheses at the empty service:
the result of constructing with ra 10, dec 20, radius 50, row cap 50. -/
def emptyPatchCap50 : SkyPatchState :=
  { ra := 10
    dec := 20
    radius := 50
    num_sources := some 50
    pandas_data := [] }

/-! ### Static visualization

`plot_2D_star_positions` passes the table's columns straight to
`plotly.graph_objects.Scatter`.  The scatter trace records the data the code
hands to the plotting library; the `Except` layer marks the only point at
which the call could raise, namely the external library rejecting
inconsistent column lengths — the orchestration code performs no checks of
its own. -/

/-- The scatter trace handed to `go.Scatter` by `plot_2D_star_positions`. -/
structure ScatterTrace where
  x : List ℚ
  y : List ℚ
  sizes : List ℚ
  colors : List ℚ
deriving DecidableEq, Repr

/-- `SkyPatch.plot_2D_star_positions`: x is the `ra` column, y the `dec`
column, marker sizes `(10 - phot_g_mean_mag) * 2`, marker colors
`phot_g_mean_mag`.  The error branch models the plotting library rejecting
columns of inconsistent length; the method itself validates nothing. -/
def plot_2D_star_positions (st : SkyPatchState) : Except String ScatterTrace :=
  let x := st.pandas_data.map (fun r => r.ra)
  let y := st.pandas_data.map (fun r => r.dec)
  let sizes := st.pandas_data.map (fun r => (10 - r.phot_g_mean_mag) * 2)
  let colors := st.pandas_data.map (fun r => r.phot_g_mean_mag)
  if y.length = x.length ∧ sizes.length = x.length ∧ colors.length = x.length then
    Except.ok { x := x, y := y, sizes := sizes, colors := colors }
  else
    Except.error "plotting library: column length mismatch"

/-! ### Animated visualization

`animate_2D_star_positions` integrates every source's orbit with galpy over
the fixed time grid `ts = [0, 0.2, 0.4, 0.6, 0.8, 1] * u.Myr`, then builds a
long-format DataFrame column by column: for each timestep index `i` it
appends, to each column accumulator, one entry per source
(`os.ra()` is the per-source array of integrated values, one inner array per
source, indexed by timestep as `source[i]`). -/

/-- The integrated orbit result `os = o(ts)`, abstract: one entry of each
attribute per source, each a function of the timestep index. -/
structure OrbitResult where
  ra : List (Nat → ℚ)
  dec : List (Nat → ℚ)
  pmra : List (Nat → ℚ)
  pmdec : List (Nat → ℚ)
  vlos : List (Nat → ℚ)

/-- The number of animation timesteps: `n_timesteps = len(ts) = 6`. -/
def n_timesteps : Nat := 6

/-- The `.value` components of `ts = [0, 0.2, 0.4, 0.6, 0.8, 1] * u.Myr`. -/
def tsValues : List ℚ := [0, 2/10, 4/10, 6/10, 8/10, 1]

/-- The `timesteps` column: for each `i < n_timesteps` the loop appends
`[ts[i].value] * os.ra().shape[0]`, i.e. the i-th timestep value repeated
once per source. -/
def timestepsCol (os : OrbitResult) : List ℚ :=
  (List.range n_timesteps).flatMap
    (fun i => List.replicate os.ra.length (tsValues.getD i 0))

/-- The `source_ids` column: each loop iteration appends the whole
`source_id` column of the snapshot table. -/
def sourceIdsCol (data : List PandasRow) : List Int :=
  (List.range n_timesteps).flatMap (fun _ => data.map (fun r => r.source_id))

/-- The `ras` column: iteration `i` appends `[source[i] for source in os.ra()]`. -/
def rasCol (os : OrbitResult) : List ℚ :=
  (List.range n_timesteps).flatMap (fun i => os.ra.map (fun source => source i))

/-- The `decs` column, built like `rasCol` from `os.dec()`. -/
def decsCol (os : OrbitResult) : List ℚ :=
  (List.range n_timesteps).flatMap (fun i => os.dec.map (fun source => source i))

/-- The `pmras` column, built like `rasCol` from `os.pmra()`. -/
def pmrasCol (os : OrbitResult) : List ℚ :=
  (List.range n_timesteps).flatMap (fun i => os.pmra.map (fun source => source i))

/-- The `pmdecs` column, built like `rasCol` from `os.pmdec()`. -/
def pmdecsCol (os : OrbitResult) : List ℚ :=
  (List.range n_timesteps).flatMap (fun i => os.pmdec.map (fun source => source i))

/-- The `vloss` column, built like `rasCol` from `os.vlos()`. -/
def vlossCol (os : OrbitResult) : List ℚ :=
  (List.range n_timesteps).flatMap (fun i => os.vlos.map (fun source => source i))

/-- The `phot_g_mean_mags` column: each iteration appends the whole
`phot_g_mean_mag` column of the snapshot table. -/
def photGMeanMagsCol (data : List PandasRow) : List ℚ :=
  (List.range n_timesteps).flatMap (fun _ => data.map (fun r => r.phot_g_mean_mag))

/-- The long-format DataFrame `df` built inside `animate_2D_star_positions`,
as its named columns. -/
structure LongDF where
  source_id : List Int
  timestep : List ℚ
  ra : List ℚ
  dec : List ℚ
  pmra : List ℚ
  pmdec : List ℚ
  vlos : List ℚ
  phot_g_mean_mag : List ℚ

/-- Assembly of `df` from the accumulated column series. -/
def buildTimestepDF (data : List PandasRow) (os : OrbitResult) : LongDF :=
  { source_id := sourceIdsCol data
    timestep := timestepsCol os
    ra := rasCol os
    dec := decsCol os
    pmra := pmrasCol os
    pmdec := pmdecsCol os
    vlos := vlossCol os
    phot_g_mean_mag := photGMeanMagsCol data }

/-- Python truthiness of the `filename` argument: `None` and the empty
string are falsy, any non-empty string is truthy. -/
def pyTruthy : Option String → Bool
  | none => false
  | some s => !s.isEmpty

/-- The observable output of `animate_2D_star_positions`: the long-format
table, the list of files written by `fig.write_html`, and whether
`fig.show()` ran. -/
structure AnimOutput where
  df : LongDF
  writtenFiles : List String
  shown : Bool

/-- `SkyPatch.animate_2D_star_positions(filename)`: builds the long table,
writes the HTML file only under `if filename:` (Python truthiness), and
unconditionally calls `fig.show()` afterwards. -/
def animate_2D_star_positions (st : SkyPatchState) (os : OrbitResult)
    (filename : Option String) : AnimOutput :=
  { df := buildTimestepDF st.pandas_data os
    writtenFiles := if pyTruthy filename then [filename.getD ""] else []
    shown := true }

/-- A concrete integration result with a single source whose attributes are
constant over time, used to instantiate hypotheses. -/
def oneSourceOrbit : OrbitResult :=
  { ra := [fun _ => 10]
    dec := [fun _ => 20]
    pmra := [fun _ => 0]
    pmdec := [fun _ => 0]
    vlos := [fun _ => 0] }

/-! ### Method calls as state transformers

Neither method assigns to any `self` field, so each step returns the state
it was given together with its output; `runCalls` replays an arbitrary
sequence of method calls. -/

/-- `plot_2D_star_positions` as a state transformer: output paired with the
state the method leaves behind (the method body contains no assignment to
`self`). -/
def plotStep (st : SkyPatchState) : SkyPatchState × Except String ScatterTrace :=
  (st, plot_2D_star_positions st)

/-- `animate_2D_star_positions` as a state transformer. -/
def animateStep (st : SkyPatchState) (os : OrbitResult) (filename : Option String) :
    SkyPatchState × AnimOutput :=
  (st, animate_2D_star_positions st os filename)

/-- One post-construction method call. -/
inductive VizCall where
  | plotCall : VizCall
  | animateCall (filename : Option String) : VizCall

/-- Replay a sequence of method calls, threading the state. -/
def runCalls (os : OrbitResult) (st : SkyPatchState) : List VizCall → SkyPatchState
  | [] => st
  | c :: cs =>
    match c with
    | .plotCall => runCalls os (plotStep st).1 cs
    | .animateCall f => runCalls os (animateStep st os f).1 cs

/-! ### String lemmas -/

/-- Appending on the left preserves substring containment. -/
theorem strContains_appendLeft (a : String) {s t : String} (h : strContains s t) :
    strContains (a ++ s) t := by
  obtain ⟨l, r, hl⟩ := h
  refine ⟨a.data ++ l, r, ?_⟩
  show a.data ++ s.data = a.data ++ l ++ t.data ++ r
  rw [hl]
  simp [List.append_assoc]

/-- Appending on the left preserves the suffix relation. -/
theorem strEndsWith_appendLeft (a : String) {s t : String} (h : strEndsWith s t) :
    strEndsWith (a ++ s) t := by
  obtain ⟨l, hl⟩ := h
  refine ⟨a.data ++ l, ?_⟩
  show a.data ++ s.data = a.data ++ l ++ t.data
  rw [hl, List.append_assoc]

/-- The suffix relation is transitive. -/
theorem strEndsWith_trans {s t u : String} (h1 : strEndsWith s t) (h2 : strEndsWith t u) :
    strEndsWith s u := by
  obtain ⟨l1, hl1⟩ := h1
  obtain ⟨l2, hl2⟩ := h2
  exact ⟨l1 ++ l2, by rw [hl1, hl2, List.append_assoc]⟩

/-- A substring of a suffix is a substring of the whole. -/
theorem strContains_of_endsWith {s t u : String} (h1 : strEndsWith s t)
    (h2 : strContains t u) : strContains s u := by
  obtain ⟨l1, hl1⟩ := h1
  obtain ⟨l2, r2, hl2⟩ := h2
  exact ⟨l1 ++ l2, r2, by rw [hl1, hl2]; simp [List.append_assoc]⟩

/-- The query body ends with the fixed filter/ORDER BY text. -/
theorem queryBody_endsWith_tail (raS decS radS : String) :
    strEndsWith (gaiaQueryBody raS decS radS) queryTail :=
  ⟨(queryHead ++ raS ++ "," ++ decS ++ "," ++ radS).data, rfl⟩

/-- The full query, with or without a row cap, ends with the query body. -/
theorem query_endsWith_body (raS decS radS : String) :
    ∀ num, strEndsWith (gaiaQuery raS decS radS num) (gaiaQueryBody raS decS radS)
  | some n =>
    strEndsWith_appendLeft "SELECT " ⟨("TOP " ++ toString n ++ " ").data, rfl⟩
  | none => strEndsWith_appendLeft "SELECT " ⟨[], rfl⟩

/-- The full query ends with the fixed filter/ORDER BY text. -/
theorem query_endsWith_tail (raS decS radS : String) (num : Option Nat) :
    strEndsWith (gaiaQuery raS decS radS num) queryTail :=
  strEndsWith_trans (query_endsWith_body raS decS radS num)
    (queryBody_endsWith_tail raS decS radS)

/-- Any substring of the fixed filter/ORDER BY text occurs in the full query. -/
theorem query_contains_of_tail {u : String} (raS decS radS : String)
    (num : Option Nat) (h : strContains queryTail u) :
    strContains (gaiaQuery raS decS radS num) u :=
  strContains_of_endsWith (query_endsWith_tail raS decS radS num) h

/-- The radial-velocity null filter occurs in the fixed query text. -/
theorem tail_contains_rv_filter : strContains queryTail "radial_velocity IS NOT NULL" :=
  ⟨"))\n        AND ".data,
    " AND ra IS NOT NULL AND dec IS NOT NULL AND parallax >= 0\n        AND phot_g_mean_mag < 10\n        ORDER BY phot_g_mean_mag".data,
    by decide⟩

/-- The ra null filter occurs in the fixed query text. -/
theorem tail_contains_ra_filter : strContains queryTail "ra IS NOT NULL" :=
  ⟨"))\n        AND radial_velocity IS NOT NULL AND ".data,
    " AND dec IS NOT NULL AND parallax >= 0\n        AND phot_g_mean_mag < 10\n        ORDER BY phot_g_mean_mag".data,
    by decide⟩

/-- The dec null filter occurs in the fixed query text. -/
theorem tail_contains_dec_filter : strContains queryTail "dec IS NOT NULL" :=
  ⟨"))\n        AND radial_velocity IS NOT NULL AND ra IS NOT NULL AND ".data,
    " AND parallax >= 0\n        AND phot_g_mean_mag < 10\n        ORDER BY phot_g_mean_mag".data,
    by decide⟩

/-- The non-negative parallax filter occurs in the fixed query text. -/
theorem tail_contains_parallax_filter : strContains queryTail "parallax >= 0" :=
  ⟨"))\n        AND radial_velocity IS NOT NULL AND ra IS NOT NULL AND dec IS NOT NULL AND ".data,
    "\n        AND phot_g_mean_mag < 10\n        ORDER BY phot_g_mean_mag".data,
    by decide⟩

/-- The brightness cutoff occurs in the fixed query text. -/
theorem tail_contains_mag_cutoff : strContains queryTail "phot_g_mean_mag < 10" :=
  ⟨"))\n        AND radial_velocity IS NOT NULL AND ra IS NOT NULL AND dec IS NOT NULL AND parallax >= 0\n        AND ".data,
    "\n        ORDER BY phot_g_mean_mag".data,
    by decide⟩

/-- The fixed query text ends with the ORDER BY clause. -/
theorem tail_endsWith_order_by : strEndsWith queryTail "ORDER BY phot_g_mean_mag" :=
  ⟨"))\n        AND radial_velocity IS NOT NULL AND ra IS NOT NULL AND dec IS NOT NULL AND parallax >= 0\n        AND phot_g_mean_mag < 10\n        ".data,
    by decide⟩

/-! ### Claim C1: the derived distance column -/

/-- A concrete catalog row with parallax 2 mas (true distance 0.5 kpc). -/
def rowParallax2 : GaiaRow :=
  { source_id := 1
    ra := 10
    dec := 20
    pmra := 0
    pmdec := 0
    parallax := 2
    radial_velocity := 0
    phot_g_mean_mag := 5
    phot_variable_flag := "NOT_AVAILABLE" }

/-- Claim C1 (code bug): the constructor multiplies the parallax column by
the scalar `u.marcsec.to(u.kpc, equivalencies=u.parallax())`, which equals 1,
so the stored `distance` equals the parallax value itself rather than its
reciprocal.  On a row with parallax 2 mas the code stores distance 2 kpc
while the specified value `1/parallax` is 0.5 kpc — far beyond any
floating-point tolerance — so the code contradicts the specified
parallax-distance relation. -/
theorem distance_column_equals_parallax_not_reciprocal :
    marcsec_to_kpc_factor = 1
    ∧ (addDistance rowParallax2).distance = 2
    ∧ spec_distance rowParallax2.parallax = 1 / 2
    ∧ (addDistance rowParallax2).distance ≠ spec_distance rowParallax2.parallax := by
  refine ⟨?_, ?_, ?_, ?_⟩ <;>
    norm_num [marcsec_to_kpc_factor, pc_to_kpc, parallaxEquiv_arcsec_to_pc,
      mas_to_arcsec, addDistance, spec_distance, rowParallax2]

/-! ### Claim C2: the radius precondition -/

/-- Claim C2: for `1 < radius < 100` construction does not fail with the
radius assert; for any radius outside the open interval the constructor
returns exactly the radius assert error, and does so independently of the
catalog service — no query is submitted. -/
theorem radius_precondition (pyStr : ℚ → String) (svc : String → List GaiaRow)
    (ra dec : ℚ) (num : Option Nat) (r : ℚ) :
    (1 < r → r < 100 → (skyPatchInit pyStr svc ra dec r num).isOk = true)
    ∧ (¬ (1 < r ∧ r < 100) →
        skyPatchInit pyStr svc ra dec r num = Except.error radiusAssertMsg
        ∧ ∀ svc', skyPatchInit pyStr svc ra dec r num = skyPatchInit pyStr svc' ra dec r num) := by
  constructor
  · intro h1 h2
    simp [skyPatchInit, h1, h2, Except.isOk, Except.toBool]
  · intro h
    constructor
    · simp [skyPatchInit, h]
    · intro svc'
      simp [skyPatchInit, h]

/-- Witness for C2: radius 50 constructs successfully, while the boundary
values 1 and 100 both fail with the radius assert. -/
theorem radius_precondition_witness :
    (skyPatchInit (fun _ => "") (fun _ => []) 10 20 50 none).isOk = true
    ∧ skyPatchInit (fun _ => "") (fun _ => []) 10 20 1 none = Except.error radiusAssertMsg
    ∧ skyPatchInit (fun _ => "") (fun _ => []) 10 20 100 none = Except.error radiusAssertMsg :=
  ⟨(radius_precondition (fun _ => "") (fun _ => []) 10 20 none 50).1
      (by norm_num) (by norm_num),
    ((radius_precondition (fun _ => "") (fun _ => []) 10 20 none 1).2
      (by norm_num)).1,
    ((radius_precondition (fun _ => "") (fun _ => []) 10 20 none 100).2
      (by norm_num)).1⟩

/-! ### Claim C3: the query-level row filters -/

/-- Claim C3: for every choice of interpolated values and row cap, the
constructed query contains the filters `radial_velocity IS NOT NULL`,
`ra IS NOT NULL`, `dec IS NOT NULL` and `parallax >= 0`; consequently, for
any catalog service that honors the `parallax >= 0` filter, every row of a
constructed SkyPatch's table has non-negative parallax.  (Non-missing ra,
dec and radial velocity are reflected in `GaiaRow` typing those columns as
total, justified by the `IS NOT NULL` filters proved present here.) -/
theorem query_filter_invariant (raS decS radS : String) (num : Option Nat) :
    strContains (gaiaQuery raS decS radS num) "radial_velocity IS NOT NULL"
    ∧ strContains (gaiaQuery raS decS radS num) "ra IS NOT NULL"
    ∧ strContains (gaiaQuery raS decS radS num) "dec IS NOT NULL"
    ∧ strContains (gaiaQuery raS decS radS num) "parallax >= 0"
    ∧ ∀ (pyStr : ℚ → String) (svc : String → List GaiaRow),
        honorsParallaxFilter svc →
        ∀ (ra dec radius : ℚ) (ns : Option Nat) (st : SkyPatchState),
          skyPatchInit pyStr svc ra dec radius ns = Except.ok st →
          ∀ pr ∈ st.pandas_data, 0 ≤ pr.parallax := by
  refine ⟨query_contains_of_tail raS decS radS num tail_contains_rv_filter,
    query_contains_of_tail raS decS radS num tail_contains_ra_filter,
    query_contains_of_tail raS decS radS num tail_contains_dec_filter,
    query_contains_of_tail raS decS radS num tail_contains_parallax_filter,
    ?_⟩
  intro pyStr svc hsvc ra dec radius ns st hinit pr hpr
  by_cases hcond : 1 < radius ∧ radius < 100
  · rw [skyPatchInit, if_pos hcond] at hinit
    obtain rfl : st = _ := (Except.ok.injEq _ _).mp hinit.symm
    simp only [List.mem_map] at hpr
    obtain ⟨g, hg, rfl⟩ := hpr
    exact hsvc _
      (query_contains_of_tail (pyStr ra) (pyStr dec) (pyStr radius) ns
        tail_contains_parallax_filter) g hg
  · rw [skyPatchInit, if_neg hcond] at hinit
    exact absurd hinit (by simp)

/-- Witness for C3: the filters are present in a concrete query, and a
concrete service returning no rows trivially honors the parallax filter, so
the constructed table (empty here) satisfies the invariant. -/
theorem query_filter_invariant_witness :
    strContains (gaiaQuery "10.0" "20.0" "50" none) "parallax >= 0"
    ∧ ∀ pr ∈ emptyPatchNoCap.pandas_data, 0 ≤ pr.parallax :=
  ⟨(query_filter_invariant "10.0" "20.0" "50" none).2.2.2.1,
    (query_filter_invariant "10.0" "20.0" "50" none).2.2.2.2
      (fun _ => "") (fun _ => []) (by intro q _ r hr; exact absurd hr (by simp))
      10 20 50 none emptyPatchNoCap
      (by norm_num [skyPatchInit, emptyPatchNoCap])⟩

/-! ### Claim C4: the row cap -/

/-- Claim C4: with `num_sources = n` the query carries `TOP n` immediately
after `SELECT` (the query text is exactly `SELECT TOP n ` followed by the
uncapped body), and any service honoring ADQL row caps returns at most `n`
rows, so the constructed table has at most `n` rows; with `num_sources =
None` no row cap is inserted — the query is exactly `SELECT ` followed by
the uncapped body. -/
theorem row_cap (raS decS radS : String) (n : Nat) :
    (gaiaQuery raS decS radS (some n)).data
      = "SELECT TOP ".data ++ (toString n).data ++ " ".data
          ++ (gaiaQueryBody raS decS radS).data
    ∧ gaiaQuery raS decS radS none = "SELECT " ++ gaiaQueryBody raS decS radS
    ∧ ∀ (pyStr : ℚ → String) (svc : String → List GaiaRow), honorsTop svc →
        ∀ (ra dec radius : ℚ) (st : SkyPatchState),
          skyPatchInit pyStr svc ra dec radius (some n) = Except.ok st →
          st.pandas_data.length ≤ n := by
  refine ⟨rfl, rfl, ?_⟩
  intro pyStr svc hsvc ra dec radius st hinit
  by_cases hcond : 1 < radius ∧ radius < 100
  · rw [skyPatchInit, if_pos hcond] at hinit
    obtain rfl : st = _ := (Except.ok.injEq _ _).mp hinit.symm
    simpa using hsvc n (gaiaQueryBody (pyStr ra) (pyStr dec) (pyStr radius))
  · rw [skyPatchInit, if_neg hcond] at hinit
    exact absurd hinit (by simp)

/-- Witness for C4: a service returning no rows honors row caps, and the
table built with `num_sources = 50` has at most 50 rows. -/
theorem row_cap_witness :
    (gaiaQuery "10.0" "20.0" "5" (some 50)).data
      = "SELECT TOP ".data ++ (toString 50).data ++ " ".data
          ++ (gaiaQueryBody "10.0" "20.0" "5").data
    ∧ emptyPatchCap50.pandas_data.length ≤ 50 :=
  ⟨(row_cap "10.0" "20.0" "5" 50).1,
    (row_cap "10.0" "20.0" "5" 50).2.2 (fun _ => "") (fun _ => [])
      (by intro n rest; simp) 10 20 50 emptyPatchCap50
      (by norm_num [skyPatchInit, emptyPatchCap50])⟩

/-! ### Claim C6: ordering by brightness -/

/-- Claim C6: for every choice of interpolated values and row cap, the
constructed query ends with `ORDER BY phot_g_mean_mag`, the clause that
orders the selected rows by apparent g magnitude (ascending, the ADQL
default direction). -/
theorem query_orders_by_brightness (raS decS radS : String) (num : Option Nat) :
    strEndsWith (gaiaQuery raS decS radS num) "ORDER BY phot_g_mean_mag" :=
  strEndsWith_trans (query_endsWith_tail raS decS radS num) tail_endsWith_order_by

/-! ### Claim C7: the undocumented brightness cutoff -/

/-- Claim C7: the latest revision's query carries the additional filter
`phot_g_mean_mag < 10` for every choice of interpolated values and row cap,
so every returned row has apparent g magnitude below 10 at the service
boundary. -/
theorem query_has_brightness_cutoff (raS decS radS : String) (num : Option Nat) :
    strContains (gaiaQuery raS decS radS num) "phot_g_mean_mag < 10" :=
  query_contains_of_tail raS decS radS num tail_contains_mag_cutoff

/-! ### Claim C5: the long-format animation table -/

/-- Claim C5: when the integrator returns one orbit per source (which galpy
guarantees, `len(Orbit(skycoords)) = len(skycoords)`), the long-format table
has exactly `(number of source rows) * 6` entries in each accumulated
column; its `timestep` column is six blocks, block `i` repeating the single
value `ts[i]` once per source; and the six timestep values are pairwise
distinct. -/
theorem animate_long_table_shape (data : List PandasRow) (os : OrbitResult)
    (hos : os.ra.length = data.length) :
    (buildTimestepDF data os).timestep.length = data.length * 6
    ∧ (buildTimestepDF data os).source_id.length = data.length * 6
    ∧ (buildTimestepDF data os).timestep
        = tsValues.flatMap (fun t => List.replicate data.length t)
    ∧ tsValues.length = 6
    ∧ tsValues.Nodup := by
  refine ⟨?_, ?_, ?_, rfl, by norm_num [tsValues]⟩
  · show (timestepsCol os).length = data.length * 6
    unfold timestepsCol n_timesteps
    rw [hos, show List.range 6 = [0, 1, 2, 3, 4, 5] from by decide]
    simp [List.flatMap_cons, List.length_append, List.length_replicate]
    ring
  · show (sourceIdsCol data).length = data.length * 6
    unfold sourceIdsCol n_timesteps
    rw [show List.range 6 = [0, 1, 2, 3, 4, 5] from by decide]
    simp [List.flatMap_cons, List.length_append]
    ring
  · show timestepsCol os = tsValues.flatMap fun t => List.replicate data.length t
    unfold timestepsCol n_timesteps tsValues
    rw [hos, show List.range 6 = [0, 1, 2, 3, 4, 5] from by decide]
    simp [List.flatMap_cons, List.getD]

/-- Witness for C5: one source integrated over the six timesteps yields a
six-entry timestep column with pairwise distinct group values. -/
theorem animate_long_table_shape_witness :
    (buildTimestepDF [addDistance rowParallax2] oneSourceOrbit).timestep.length
      = [addDistance rowParallax2].length * 6
    ∧ tsValues.Nodup :=
  ⟨(animate_long_table_shape [addDistance rowParallax2] oneSourceOrbit rfl).1,
    (animate_long_table_shape [addDistance rowParallax2] oneSourceOrbit rfl).2.2.2.2⟩

/-! ### Claim C8: the methods never mutate the snapshot -/

/-- Claim C8: replaying any sequence of `plot_2D_star_positions` and
`animate_2D_star_positions` calls leaves `ra`, `dec`, `radius`,
`num_sources` and the source table — the `distance` column included —
exactly as the constructor stored them: neither method body assigns to any
`self` field. -/
theorem methods_preserve_state (os : OrbitResult) (st : SkyPatchState)
    (calls : List VizCall) :
    (runCalls os st calls).ra = st.ra
    ∧ (runCalls os st calls).dec = st.dec
    ∧ (runCalls os st calls).radius = st.radius
    ∧ (runCalls os st calls).num_sources = st.num_sources
    ∧ (runCalls os st calls).pandas_data = st.pandas_data := by
  have h : runCalls os st calls = st := by
    induction calls generalizing st with
    | nil => rfl
    | cons c cs ih =>
      cases c with
      | plotCall => exact ih st
      | animateCall f => exact ih st
  rw [h]
  exact ⟨rfl, rfl, rfl, rfl, rfl⟩

/-! ### Claim C9: the end-to-end scenario -/

/-- Claim C9: constructing with ra 10, dec 20, radius 5 and row cap 50
against any row-cap-honoring service succeeds, the table has at most 50
rows, every row's `distance` is the value the constructor derived from its
parallax, and the static plot call succeeds — its four columns are drawn
from the same rows, so their lengths agree and the plotting boundary has
nothing to reject. -/
theorem scenario_plot_succeeds (pyStr : ℚ → String) (svc : String → List GaiaRow)
    (hsvc : honorsTop svc) :
    ∃ st, skyPatchInit pyStr svc 10 20 5 (some 50) = Except.ok st
      ∧ st.pandas_data.length ≤ 50
      ∧ (∀ r ∈ st.pandas_data, r.distance = r.parallax * marcsec_to_kpc_factor)
      ∧ (plot_2D_star_positions st).isOk = true := by
  refine ⟨{ ra := 10
            dec := 20
            radius := 5
            num_sources := some 50
            pandas_data :=
              (svc (gaiaQuery (pyStr 10) (pyStr 20) (pyStr 5) (some 50))).map
                addDistance }, ?_, ?_, ?_, ?_⟩
  · rw [skyPatchInit, if_pos (by norm_num)]
  · simpa using hsvc 50 (gaiaQueryBody (pyStr 10) (pyStr 20) (pyStr 5))
  · intro r hr
    simp only [List.mem_map] at hr
    obtain ⟨g, hg, rfl⟩ := hr
    rfl
  · simp [plot_2D_star_positions, Except.isOk, Except.toBool]

/-- Witness for C9: the scenario instantiated at a concrete service that
returns no rows (and so honors every row cap). -/
theorem scenario_plot_succeeds_witness :
    ∃ st, skyPatchInit (fun _ => "") (fun _ => []) 10 20 5 (some 50) = Except.ok st
      ∧ st.pandas_data.length ≤ 50
      ∧ (∀ r ∈ st.pandas_data, r.distance = r.parallax * marcsec_to_kpc_factor)
      ∧ (plot_2D_star_positions st).isOk = true :=
  scenario_plot_succeeds (fun _ => "") (fun _ => []) (by intro n rest; simp)

/-! ### Claim C10: HTML output exactly when the filename is truthy -/

/-- Claim C10: `animate_2D_star_positions` writes a file exactly when the
`filename` argument is truthy in Python's sense — with `None` or the empty
string nothing is written — while the long-format table is built and the
figure is shown in every case. -/
theorem animate_writes_iff_truthy (st : SkyPatchState) (os : OrbitResult)
    (filename : Option String) :
    ((animate_2D_star_positions st os filename).writtenFiles ≠ []
      ↔ pyTruthy filename = true)
    ∧ (animate_2D_star_positions st os none).writtenFiles = []
    ∧ (animate_2D_star_positions st os (some "")).writtenFiles = []
    ∧ (pyTruthy filename = true →
        (animate_2D_star_positions st os filename).writtenFiles
          = [filename.getD ""])
    ∧ (animate_2D_star_positions st os filename).shown = true
    ∧ (animate_2D_star_positions st os filename).df
        = buildTimestepDF st.pandas_data os := by
  refine ⟨?_, ?_, ?_, ?_, rfl, rfl⟩
  · by_cases h : pyTruthy filename = true <;> simp [animate_2D_star_positions, h]
  · simp [animate_2D_star_positions, pyTruthy]
  · simp [animate_2D_star_positions, pyTruthy, String.isEmpty]
  · intro h
    simp [animate_2D_star_positions, h]

/-- Witness for C10: with a concrete non-empty filename the file is written;
the iff and the write both follow from the theorem at that input. -/
theorem animate_writes_iff_truthy_witness :
    ((animate_2D_star_positions emptyPatchNoCap oneSourceOrbit
        (some "anim.html")).writtenFiles ≠ []
      ↔ pyTruthy (some "anim.html") = true)
    ∧ (animate_2D_star_positions emptyPatchNoCap oneSourceOrbit
        (some "anim.html")).writtenFiles = [(some "anim.html").getD ""] :=
  ⟨(animate_writes_iff_truthy emptyPatchNoCap oneSourceOrbit (some "anim.html")).1,
    (animate_writes_iff_truthy emptyPatchNoCap oneSourceOrbit
      (some "anim.html")).2.2.2.1 (by decide)⟩

end Gaiaviz
